import Mathlib

/-!
Verification of `gdrive_download.py`, a command-line script that
authenticates against Google Drive, lists the entries of a remote folder,
filters them by an optional exact display name and by MIME type, downloads
the matching entries into the current working directory, reports a count,
and optionally raises when the count is zero.

The embedding below mirrors the source functions `download` and `main`.
The external library calls (authentication, listing, fetching content) are
modelled by their observable effects: authentication and listing are
`Except`-valued inputs to `runMain`, and fetching a file's content is a
write of `(cwd, title)` into an explicit filesystem state.
-/

/-- MIME type string that Google Drive uses to mark folder entries
(line 69 of the source). -/
def folderMime : String := "application/vnd.google-apps.folder"

/-- A remote file-metadata entry as produced by the listing call: a display
name (`title`) and a MIME type. These are the only two fields the script
reads from an entry besides its content. -/
structure Entry where
  title : String
  mimeType : String
deriving DecidableEq, Repr

/-- Python truthiness of an optional string value (`argparse` yields `None`
for an omitted option): `None` and the empty string are falsy, every other
string is truthy. Used for `not file_name` (line 69) and
`if args.destination:` (line 90). -/
def strTruthy : Option String → Bool
  | none => false
  | some s => !(s == "")

/-- The filter condition of the loop body (line 69 of the source):
`(not file_name or title == file_name) and file['mimeType'] != folder`.
When `file_name` is falsy the name test is skipped by short-circuiting. -/
def shouldDownload (file_name : Option String) (e : Entry) : Bool :=
  (!(strTruthy file_name) || e.title == file_name.getD "") &&
    !(e.mimeType == folderMime)

/-- Filesystem state the script observes and mutates: the current working
directory, the set of existing directories, and the files written so far as
`(directory, filename)` pairs, in write order. -/
structure FS where
  cwd : String
  dirs : List String
  written : List (String × String)
deriving DecidableEq, Repr

/-- Result of the `download` loop (lines 64-74): the filesystem after all
writes, the entries fetched in order, and `downloads_counter`. -/
structure DownloadResult where
  fs : FS
  downloaded : List Entry
  counter : Nat
deriving DecidableEq, Repr

/-- The `download` function (lines 64-74 of the source): iterate over the
listing; for each entry passing `shouldDownload`, fetch its content into
the current working directory (`file.GetContentFile(title)` writes
`cwd/title`) and increment the counter. -/
def download : FS → List Entry → Option String → DownloadResult
  | fs, [], _ => ⟨fs, [], 0⟩
  | fs, e :: rest, f =>
    if shouldDownload f e then
      let fs1 : FS := { fs with written := fs.written ++ [(fs.cwd, e.title)] }
      let r := download fs1 rest f
      ⟨r.fs, e :: r.downloaded, r.counter + 1⟩
    else
      download fs rest f

/-- The command-line arguments the script's behaviour depends on after
parsing (lines 28-40): `--file`, `--destination` (both optional, `none`
when omitted) and the `--fail-if-nothing-was-downloaded` flag. -/
structure Args where
  file : Option String
  destination : Option String
  failFlag : Bool
deriving DecidableEq, Repr

/-- Observable outcome of a run of `main`: the final filesystem state, the
final count printed by line 97 (`none` when the run dies before reaching
it), and the error the process terminates with, if any. -/
structure RunResult where
  fs : FS
  printedCount : Option Nat
  error : Option String
deriving DecidableEq, Repr

/-- The destination handling of `main` (lines 89-93): when
`args.destination` is truthy, create it unless it already exists, then
change the working directory to it. -/
def changeCwd (args : Args) (fs : FS) : FS :=
  match args.destination with
  | none => fs
  | some d =>
    if d == "" then fs
    else
      let fs1 : FS := if fs.dirs.contains d then fs
                      else { fs with dirs := fs.dirs ++ [d] }
      { fs1 with cwd := d }

/-- The `main` function (lines 77-99): authenticate, list the folder, change
the working directory per `--destination`, download, print the count, and
raise when the count is zero and the fail flag is set. Authentication and
listing are library calls whose failures propagate: a library error
terminates the run before any filesystem change and before the count is
printed. -/
def runMain (args : Args) (auth : Except String Unit)
    (listing : Except String (List Entry)) (fs0 : FS) : RunResult :=
  match auth with
  | .error e => ⟨fs0, none, some e⟩
  | .ok _ =>
    match listing with
    | .error e => ⟨fs0, none, some e⟩
    | .ok file_list =>
      let fs1 := changeCwd args fs0
      let r := download fs1 file_list args.file
      if r.counter == 0 && args.failFlag then
        ⟨r.fs, some r.counter, some "Error: Nothing was downloaded"⟩
      else
        ⟨r.fs, some r.counter, none⟩

/-! ### Basic lemmas about `download` -/

/-- The entries fetched by `download` are exactly the entries of the listing
passing the loop's filter condition, in listing order. -/
theorem download_downloaded (l : List Entry) (fs : FS) (f : Option String) :
    (download fs l f).downloaded = l.filter (shouldDownload f) := by
  induction l generalizing fs with
  | nil => rfl
  | cons e rest ih =>
    by_cases h : shouldDownload f e = true <;>
      simp [download, List.filter, h, ih]

/-- The returned `downloads_counter` equals the number of entries passing
the loop's filter condition. -/
theorem download_counter (l : List Entry) (fs : FS) (f : Option String) :
    (download fs l f).counter = (l.filter (shouldDownload f)).length := by
  induction l generalizing fs with
  | nil => rfl
  | cons e rest ih =>
    by_cases h : shouldDownload f e = true <;>
      simp [download, List.filter, h, ih]

/-- `download` never changes the working directory or the set of
directories. -/
theorem download_fs_inv (l : List Entry) (fs : FS) (f : Option String) :
    (download fs l f).fs.cwd = fs.cwd ∧ (download fs l f).fs.dirs = fs.dirs := by
  induction l generalizing fs with
  | nil => exact ⟨rfl, rfl⟩
  | cons e rest ih =>
    by_cases h : shouldDownload f e = true <;>
      simp [download, h, ih]

/-- The writes performed by `download` are the filtered entries' titles,
each written into the working directory current when `download` started. -/
theorem download_written (l : List Entry) (fs : FS) (f : Option String) :
    (download fs l f).fs.written =
      fs.written ++ (l.filter (shouldDownload f)).map (fun e => (fs.cwd, e.title)) := by
  induction l generalizing fs with
  | nil => simp [download]
  | cons e rest ih =>
    by_cases h : shouldDownload f e = true <;>
      simp [download, List.filter, h, ih]

/-- With a truthy `--file` value `X`, the filter condition is exactly
"title equals `X` and the MIME type is not the folder type". -/
theorem shouldDownload_truthy (X : String) (hX : X ≠ "") (e : Entry) :
    shouldDownload (some X) e =
      (e.title == X && !(e.mimeType == folderMime)) := by
  have h0 : (X == "") = false := beq_eq_false_iff_ne.mpr hX
  simp [shouldDownload, strTruthy, h0]

/-- With a falsy `--file` value (omitted or empty), the filter condition is
exactly "the MIME type is not the folder type". -/
theorem shouldDownload_falsy (f : Option String)
    (hf : f = none ∨ f = some "") (e : Entry) :
    shouldDownload f e = !(e.mimeType == folderMime) := by
  rcases hf with h | h <;> simp [shouldDownload, strTruthy, h]

/-! ### Claims -/

/-- C1: without `--file`, `download` fetches exactly the non-folder entries
of the listing, and the returned count equals their number. -/
theorem download_without_file_spec (fs : FS) (l : List Entry) :
    (download fs l none).downloaded =
        l.filter (fun e => !(e.mimeType == folderMime)) ∧
      (download fs l none).counter =
        (l.filter (fun e => !(e.mimeType == folderMime))).length := by
  have he : ∀ e, shouldDownload none e = !(e.mimeType == folderMime) :=
    shouldDownload_falsy none (Or.inl rfl)
  constructor
  · rw [download_downloaded]
    exact List.filter_congr (fun e _ => he e)
  · rw [download_counter, List.filter_congr (fun e _ => he e)]

/-- Two `--file` values inducing the same filter condition make `download`
behave identically. -/
theorem download_congr (l : List Entry) (fs : FS) (f g : Option String)
    (h : ∀ e, shouldDownload f e = shouldDownload g e) :
    download fs l f = download fs l g := by
  induction l generalizing fs with
  | nil => rfl
  | cons e rest ih =>
    by_cases hc : shouldDownload g e = true <;>
      simp [download, h e, hc, ih]

/-- When `--destination` is omitted, `main` leaves the filesystem state
untouched before the download phase. -/
theorem changeCwd_none (args : Args) (fs : FS) (h : args.destination = none) :
    changeCwd args fs = fs := by
  simp [changeCwd, h]

/-- When `--destination` is a non-empty name of a directory that does not
yet exist, `main` creates it and makes it the working directory before the
download phase. -/
theorem changeCwd_new (args : Args) (fs : FS) (d : String)
    (hd : args.destination = some d) (hne : d ≠ "")
    (habs : fs.dirs.contains d = false) :
    changeCwd args fs = ⟨d, fs.dirs ++ [d], fs.written⟩ := by
  have h0 : (d == "") = false := beq_eq_false_iff_ne.mpr hne
  have h1 : d ∉ fs.dirs := by simpa using habs
  simp [changeCwd, hd, h0, h1]

/-- After successful authentication and listing, the final filesystem state
of a run is the state produced by the download loop. -/
theorem runMain_ok_fs (args : Args) (l : List Entry) (fs0 : FS) :
    (runMain args (Except.ok ()) (Except.ok l) fs0).fs =
      (download (changeCwd args fs0) l args.file).fs := by
  unfold runMain
  by_cases h : ((download (changeCwd args fs0) l args.file).counter == 0
      && args.failFlag) = true <;> simp [h]

/-- After successful authentication and listing, the run always prints the
counter returned by the download loop as its final count. -/
theorem runMain_ok_count (args : Args) (l : List Entry) (fs0 : FS) :
    (runMain args (Except.ok ()) (Except.ok l) fs0).printedCount =
      some (download (changeCwd args fs0) l args.file).counter := by
  unfold runMain
  by_cases h : ((download (changeCwd args fs0) l args.file).counter == 0
      && args.failFlag) = true <;> simp [h]

/-- After successful authentication and listing, the run raises exactly when
the counter is zero and the fail flag is set. -/
theorem runMain_ok_error (args : Args) (l : List Entry) (fs0 : FS) :
    (runMain args (Except.ok ()) (Except.ok l) fs0).error =
      (if (download (changeCwd args fs0) l args.file).counter = 0
          ∧ args.failFlag = true
        then some "Error: Nothing was downloaded" else none) := by
  unfold runMain
  by_cases hc : (download (changeCwd args fs0) l args.file).counter = 0 <;>
    by_cases hf : args.failFlag = true <;> simp [hc, hf]

/-- C2 fails as stated at `X = ""`: with a listing holding one plain file
named `a`, no entry's display name equals the empty string, yet
`--file=""` yields count 1, not 0, because Python treats the empty string
as falsy and skips the name filter. -/
theorem file_filter_empty_name_cex :
    (∀ e ∈ [Entry.mk "a" "text/plain"], e.title ≠ "") ∧
      (download ⟨"s", [], []⟩ [Entry.mk "a" "text/plain"] (some "")).counter ≠ 0 := by
  refine ⟨?_, ?_⟩ <;> decide

/-- C2 (amended: for every non-empty name `X`): with `--file=X`, the
downloaded entries are exactly the non-folder entries titled `X`; when
exactly one such entry exists the count is 1, and when no entry is titled
`X` the count is 0 and nothing is downloaded. -/
theorem file_filter_unique_match_spec (fs : FS) (l : List Entry) (X : String)
    (hX : X ≠ "") :
    (download fs l (some X)).downloaded =
        l.filter (fun e => e.title == X && !(e.mimeType == folderMime)) ∧
      ((l.filter (fun e => e.title == X && !(e.mimeType == folderMime))).length = 1 →
        (download fs l (some X)).counter = 1) ∧
      ((∀ e ∈ l, e.title ≠ X) →
        (download fs l (some X)).counter = 0 ∧
          (download fs l (some X)).downloaded = []) := by
  have he : ∀ e ∈ l, shouldDownload (some X) e =
      (e.title == X && !(e.mimeType == folderMime)) :=
    fun e _ => shouldDownload_truthy X hX e
  have hfil : l.filter (shouldDownload (some X)) =
      l.filter (fun e => e.title == X && !(e.mimeType == folderMime)) :=
    List.filter_congr he
  have hnone : (∀ e ∈ l, e.title ≠ X) →
      l.filter (fun e => e.title == X && !(e.mimeType == folderMime)) = [] := by
    intro h
    rw [List.filter_eq_nil_iff]
    intro e hm
    simp [h e hm]
  refine ⟨?_, ?_, ?_⟩
  · rw [download_downloaded, hfil]
  · intro h1
    rw [download_counter, hfil, h1]
  · intro h
    constructor
    · rw [download_counter, hfil, hnone h]
      rfl
    · rw [download_downloaded, hfil, hnone h]

/-- Witness for the amended C2 at a concrete listing with one matching
entry and one non-matching entry. -/
theorem file_filter_unique_match_witness :
    ("a" : String) ≠ "" ∧
      (download ⟨"s", [], []⟩ [Entry.mk "a" "text/plain", Entry.mk "b" "text/plain"]
          (some "a")).counter = 1 :=
  ⟨by decide,
    (file_filter_unique_match_spec ⟨"s", [], []⟩
        [Entry.mk "a" "text/plain", Entry.mk "b" "text/plain"] "a"
        (by decide)).2.1 (by decide)⟩

/-- C3: after successful authentication and listing, the process raises if
and only if the fail flag is set and the printed download count is 0; with
the flag unset it exits normally whatever the count, and with a positive
count it exits normally whatever the flag. -/
theorem fail_flag_spec (args : Args) (l : List Entry) (fs0 : FS) :
    (runMain args (Except.ok ()) (Except.ok l) fs0).error.isSome = true ↔
      args.failFlag = true ∧
        (runMain args (Except.ok ()) (Except.ok l) fs0).printedCount = some 0 := by
  rw [runMain_ok_error, runMain_ok_count]
  by_cases hc : (download (changeCwd args fs0) l args.file).counter = 0 <;>
    by_cases hf : args.failFlag = true <;> simp [hc, hf]

/-- C4: no entry whose MIME type is the folder type is ever downloaded,
whatever the listing and whatever value (or none) `--file` holds. -/
theorem folders_never_downloaded (fs : FS) (l : List Entry) (f : Option String) :
    (download fs l f).downloaded.all (fun e => !(e.mimeType == folderMime)) = true := by
  rw [download_downloaded]
  rw [List.all_eq_true]
  intro e hm
  have := (List.mem_filter.mp hm).2
  simp only [shouldDownload, Bool.and_eq_true] at this
  exact this.2

/-- C5: when `--destination` names a non-empty directory that does not yet
exist (and authentication and listing succeed), that directory is created
before the download phase, and every file downloaded during the run is
written into it. -/
theorem destination_created_spec (args : Args) (l : List Entry) (fs0 : FS)
    (d : String) (hd : args.destination = some d) (hne : d ≠ "")
    (habs : fs0.dirs.contains d = false) :
    (runMain args (Except.ok ()) (Except.ok l) fs0).fs.dirs = fs0.dirs ++ [d] ∧
      (runMain args (Except.ok ()) (Except.ok l) fs0).fs.written =
        fs0.written ++
          (l.filter (shouldDownload args.file)).map (fun e => (d, e.title)) := by
  have hc : changeCwd args fs0 = ⟨d, fs0.dirs ++ [d], fs0.written⟩ :=
    changeCwd_new args fs0 d hd hne habs
  constructor
  · rw [runMain_ok_fs, (download_fs_inv l (changeCwd args fs0) args.file).2, hc]
  · rw [runMain_ok_fs, download_written, hc]

/-- Witness for C5: a fresh destination `dest` is created and the single
downloaded file lands in it. -/
theorem destination_created_witness :
    (Args.mk none (some "dest") false).destination = some "dest" ∧
      ("dest" : String) ≠ "" ∧
      (FS.mk "start" [] []).dirs.contains "dest" = false ∧
      (runMain (Args.mk none (some "dest") false) (Except.ok ())
          (Except.ok [Entry.mk "a" "text/plain"]) (FS.mk "start" [] [])).fs.dirs =
        [] ++ ["dest"] :=
  ⟨rfl, by decide, by decide,
    (destination_created_spec (Args.mk none (some "dest") false)
        [Entry.mk "a" "text/plain"] (FS.mk "start" [] []) "dest"
        rfl (by decide) (by decide)).1⟩

/-- C6: for a non-empty `--file` value `X`, an entry is downloaded exactly
when it occurs in the listing, its title is character-for-character equal
to `X`, and it is not a folder; no substring or pattern matching occurs. -/
theorem exact_match_spec (fs : FS) (l : List Entry) (X : String) (hX : X ≠ "")
    (e : Entry) :
    e ∈ (download fs l (some X)).downloaded ↔
      e ∈ l ∧ e.title = X ∧ e.mimeType ≠ folderMime := by
  rw [download_downloaded, List.mem_filter, shouldDownload_truthy X hX]
  simp [and_assoc]

/-- Witness for C6 at a concrete listing: the entry titled `ab` is not
downloaded under `--file=a` even though `a` is a prefix of its title. -/
theorem exact_match_witness :
    ("a" : String) ≠ "" ∧
      ¬ (Entry.mk "ab" "text/plain" ∈
          (download ⟨"s", [], []⟩
              [Entry.mk "ab" "text/plain", Entry.mk "a" "text/plain"]
              (some "a")).downloaded) :=
  ⟨by decide,
    fun h =>
      absurd ((exact_match_spec ⟨"s", [], []⟩
          [Entry.mk "ab" "text/plain", Entry.mk "a" "text/plain"] "a"
          (by decide) (Entry.mk "ab" "text/plain")).mp h).2.1 (by decide)⟩

/-- C7: an error from the authentication call, or from the listing call
after successful authentication, propagates to the process boundary: the
run terminates with that error, the filesystem is untouched (nothing is
downloaded), and the final count is never printed. -/
theorem lib_errors_propagate (args : Args) (fs0 : FS) (msg : String) :
    (∀ listing, runMain args (Except.error msg) listing fs0 =
        ⟨fs0, none, some msg⟩) ∧
      runMain args (Except.ok ()) (Except.error msg) fs0 =
        ⟨fs0, none, some msg⟩ :=
  ⟨fun _ => rfl, rfl⟩

/-- C8 fails as stated at `X = ""`: in a listing with two non-folder
entries sharing the empty display name plus one other non-folder entry,
`--file=""` downloads all three entries and reports 3, not the number of
matching entries (2), because the empty string is falsy and disables the
name filter. -/
theorem duplicate_names_empty_cex :
    (([Entry.mk "" "text/plain", Entry.mk "" "text/plain",
          Entry.mk "a" "text/plain"].filter
        (fun e => e.title == "" && !(e.mimeType == folderMime))).length = 2) ∧
      (download ⟨"s", [], []⟩
          [Entry.mk "" "text/plain", Entry.mk "" "text/plain",
            Entry.mk "a" "text/plain"] (some "")).counter ≠ 2 := by
  refine ⟨?_, ?_⟩ <;> decide

/-- C8 (amended: for every non-empty name `X`): when two or more non-folder
entries share the display name `X`, `--file=X` downloads every one of them
and the reported count equals the number of matching entries, hence can
exceed 1. -/
theorem duplicate_names_spec (fs : FS) (l : List Entry) (X : String)
    (hX : X ≠ "")
    (hdup : 2 ≤ (l.filter
        (fun e => e.title == X && !(e.mimeType == folderMime))).length) :
    (download fs l (some X)).downloaded =
        l.filter (fun e => e.title == X && !(e.mimeType == folderMime)) ∧
      (download fs l (some X)).counter =
        (l.filter (fun e => e.title == X && !(e.mimeType == folderMime))).length ∧
      2 ≤ (download fs l (some X)).counter := by
  have hfil : l.filter (shouldDownload (some X)) =
      l.filter (fun e => e.title == X && !(e.mimeType == folderMime)) :=
    List.filter_congr (fun e _ => shouldDownload_truthy X hX e)
  refine ⟨?_, ?_, ?_⟩
  · rw [download_downloaded, hfil]
  · rw [download_counter, hfil]
  · rw [download_counter, hfil]
    exact hdup

/-- Witness for the amended C8: two plain files both named `a` yield
count 2. -/
theorem duplicate_names_witness :
    ("a" : String) ≠ "" ∧
      2 ≤ (([Entry.mk "a" "text/plain", Entry.mk "a" "text/plain"].filter
          (fun e => e.title == "a" && !(e.mimeType == folderMime))).length) ∧
      2 ≤ (download ⟨"s", [], []⟩
          [Entry.mk "a" "text/plain", Entry.mk "a" "text/plain"]
          (some "a")).counter :=
  ⟨by decide, by decide,
    (duplicate_names_spec ⟨"s", [], []⟩
        [Entry.mk "a" "text/plain", Entry.mk "a" "text/plain"] "a"
        (by decide) (by decide)).2.2⟩

/-- C9: passing `--file` with the empty string behaves exactly like
omitting `--file`: the download loop returns the identical result, namely
all non-folder entries. -/
theorem empty_file_arg_spec (fs : FS) (l : List Entry) :
    download fs l (some "") = download fs l none ∧
      (download fs l (some "")).downloaded =
        l.filter (fun e => !(e.mimeType == folderMime)) := by
  have heq : download fs l (some "") = download fs l none :=
    download_congr l fs (some "") none
      (fun e => by rw [shouldDownload_falsy (some "") (Or.inr rfl),
        shouldDownload_falsy none (Or.inl rfl)])
  refine ⟨heq, ?_⟩
  rw [heq, download_downloaded]
  exact List.filter_congr (fun e _ => shouldDownload_falsy none (Or.inl rfl) e)

/-- C10: when `--destination` is not supplied (and authentication and
listing succeed), the working directory and the set of directories are
unchanged for the whole run, and every downloaded file is written into the
directory the process started in. -/
theorem no_destination_spec (args : Args) (l : List Entry) (fs0 : FS)
    (h : args.destination = none) :
    (runMain args (Except.ok ()) (Except.ok l) fs0).fs.cwd = fs0.cwd ∧
      (runMain args (Except.ok ()) (Except.ok l) fs0).fs.dirs = fs0.dirs ∧
      (runMain args (Except.ok ()) (Except.ok l) fs0).fs.written =
        fs0.written ++
          (l.filter (shouldDownload args.file)).map (fun e => (fs0.cwd, e.title)) := by
  have hc : changeCwd args fs0 = fs0 := changeCwd_none args fs0 h
  refine ⟨?_, ?_, ?_⟩
  · rw [runMain_ok_fs, (download_fs_inv l (changeCwd args fs0) args.file).1, hc]
  · rw [runMain_ok_fs, (download_fs_inv l (changeCwd args fs0) args.file).2, hc]
  · rw [runMain_ok_fs, download_written, hc]

/-- Witness for C10: with no destination, the downloaded file is written
into the starting directory `start` and no directory is created. -/
theorem no_destination_witness :
    (Args.mk none none false).destination = none ∧
      (runMain (Args.mk none none false) (Except.ok ())
          (Except.ok [Entry.mk "a" "text/plain"]) (FS.mk "start" [] [])).fs.written =
        [] ++ [("start", "a")] := by
  refine ⟨rfl, ?_⟩
  have h := (no_destination_spec (Args.mk none none false)
      [Entry.mk "a" "text/plain"] (FS.mk "start" [] []) rfl).2.2
  rw [h]
  decide
